import Mathlib

/-!
Verification development for the Dattorro plate-reverb Metasound node
(`MetasoundReverberationNode.cpp`, `FReverberationOperator`).

Samples are modelled as exact rationals (`ℚ`); the C++ code computes in
32-bit float, whose rounding is abstracted away.  The operator state and
the `Execute` block algorithm are translated line by line from the source.
The Unreal DSP primitives (`Audio::FDelay`, `Audio::FDelayAPF`,
`Audio::FStateVariableFilter`, `Audio::FExponentialEase`) are not part of
the repository; they are modelled from the specification's component
contracts (sections 4.1 - 4.4), as noted on each definition.
-/

/-- `FMath::Max(a, b)` on floats. -/
def qmax (a b : ℚ) : ℚ := if a < b then b else a

/-- `FMath::Clamp(x, lo, hi)`: `X < Min ? Min : (X < Max ? X : Max)`. -/
def qclamp (x lo hi : ℚ) : ℚ := if x < lo then lo else if x < hi then x else hi

/-- Absolute value on `ℚ`, kept as an explicit definition so that concrete
witnesses evaluate by `decide`. -/
def qabs (x : ℚ) : ℚ := if x < 0 then -x else x

/-- `FMath::IsNearlyEqual(a, b)` with the default tolerance `1e-8`. -/
def nearlyEqual (a b : ℚ) : Bool := qabs (a - b) ≤ 1 / 100000000

/-- Truncation toward zero, as the C cast from float to `int32`. -/
def ratTrunc (q : ℚ) : ℤ := if q < 0 then -Rat.floor (-q) else Rat.floor q

/-- `FMath::Fmod(x, y)`: remainder with truncation toward zero; the C result
for a zero divisor is NaN, which never feeds meaningful data downstream, and
is modelled as `0`. -/
def qfmod (x y : ℚ) : ℚ := if y = 0 then 0 else x - y * (ratTrunc (x / y) : ℚ)

/-- Mathematical modulo of a rational into `[0, n)`, used for wrapping a
read position into a circular buffer of `n` slots. -/
def qmodn (x : ℚ) (n : ℕ) : ℚ :=
  if n = 0 then 0 else x - (n : ℚ) * (Rat.floor (x / (n : ℚ)) : ℚ)

/-- Ceiling to a buffer slot count, at least one slot so that cursor
arithmetic is well defined. -/
def capOf (fs maxDelaySec : ℚ) : ℕ :=
  max 1 (-Rat.floor (-(fs * maxDelaySec))).toNat

/-- Modelled from the spec: default maximum delay (seconds) used by the
one-argument `Audio::FDelay::Init(SampleRate)` calls; the spec fixes no
value, and the model uses 1/5 second. -/
def defaultMaxDelaySeconds : ℚ := 1/5

/-- Modelled from the spec (4.1 Delay Line): a circular sample buffer with a
write cursor and a configured fractional delay length.  `Audio::FDelay` is
engine code outside the repository. -/
structure FDelay where
  buffer : List ℚ
  writeIndex : ℕ
  delaySamples : ℚ
deriving DecidableEq

/-- `init(sampleRateHz, maxDelaySeconds)`: a zero-filled buffer of
`ceil(sampleRate * maxDelaySeconds)` samples (spec 4.1). -/
def FDelay.init (fs maxDelaySec : ℚ) : FDelay :=
  { buffer := List.replicate (capOf fs maxDelaySec) 0
    writeIndex := 0
    delaySamples := 0 }

/-- The one-argument `Init(SampleRate)` used for the final-delay lines. -/
def FDelay.initDefault (fs : ℚ) : FDelay := FDelay.init fs defaultMaxDelaySeconds

def FDelay.setDelaySamples (d : FDelay) (s : ℚ) : FDelay := { d with delaySamples := s }

def FDelay.getDelayLengthSamples (d : FDelay) : ℚ := d.delaySamples

/-- `writeAndAdvance`: store at the cursor, advance modulo capacity (spec 4.1). -/
def FDelay.writeDelayAndInc (d : FDelay) (x : ℚ) : FDelay :=
  { d with buffer := d.buffer.set d.writeIndex x
           writeIndex := (d.writeIndex + 1) % d.buffer.length }

/-- `readAt(delayInSamples)`: linearly interpolated read at
`(writeCursor - delayInSamples) mod capacity`, wrapping over-range offsets
into `[0, capacity)` via modulo (spec 4.1). -/
def FDelay.readDelayAt (d : FDelay) (delayIn : ℚ) : ℚ :=
  let cap := d.buffer.length
  let pos := qmodn ((d.writeIndex : ℚ) - delayIn) cap
  let i0 := (Rat.floor pos).toNat
  let frac := pos - ((Rat.floor pos : ℤ) : ℚ)
  (1 - frac) * d.buffer.getD i0 0 + frac * d.buffer.getD ((i0 + 1) % cap) 0

/-- Modelled from the spec (4.2 All-Pass Diffuser): a delay line with a
coefficient `g`; `Audio::FDelayAPF` is engine code outside the repository. -/
structure FDelayAPF where
  delay : FDelay
  g : ℚ
deriving DecidableEq

def FDelayAPF.init (fs maxDelaySec : ℚ) : FDelayAPF :=
  { delay := FDelay.init fs maxDelaySec, g := 0 }

def FDelayAPF.initDefault (fs : ℚ) : FDelayAPF :=
  { delay := FDelay.initDefault fs, g := 0 }

def FDelayAPF.setG (a : FDelayAPF) (v : ℚ) : FDelayAPF := { a with g := v }

def FDelayAPF.setDelaySamples (a : FDelayAPF) (s : ℚ) : FDelayAPF :=
  { a with delay := a.delay.setDelaySamples s }

/-- `process(x)` in the one-multiply all-pass form of spec 4.2:
`y = -g*x + w` with `w` the delayed read, and `x + g*w` written back. -/
def FDelayAPF.processAudioSample (a : FDelayAPF) (x : ℚ) : ℚ × FDelayAPF :=
  let w := a.delay.readDelayAt a.delay.delaySamples
  (-a.g * x + w, { a with delay := a.delay.writeDelayAndInc (x + a.g * w) })

def FDelayAPF.writeDelayAndInc (a : FDelayAPF) (x : ℚ) : FDelayAPF :=
  { a with delay := a.delay.writeDelayAndInc x }

/-- Modelled from the spec (4.4 Low-Pass / Damping Filter):
`Audio::FStateVariableFilter` is engine code outside the repository.  The
spec prescribes setters, a memoizing `update` recomputing coefficients and a
per-sample difference equation over internal registers, but fixes no
concrete equation; a one-pole low-pass `y = f*x + (1-f)*yPrev` is used, with
the frequency-to-coefficient map taken as `freq / sampleRate`.  The Q value
is stored and memoized as the contract requires but does not move the
low-pass pole. -/
structure FStateVariableFilter where
  sampleRate : ℚ
  freqParam : ℚ
  qParam : ℚ
  bandStopParam : ℚ
  fCoef : ℚ
  qCoef : ℚ
  z1 : ℚ
deriving DecidableEq

def FStateVariableFilter.init (fs : ℚ) : FStateVariableFilter :=
  { sampleRate := fs, freqParam := 0, qParam := 0, bandStopParam := 0
    fCoef := 0, qCoef := 0, z1 := 0 }

def FStateVariableFilter.setFrequency (v : FStateVariableFilter) (hz : ℚ) :
    FStateVariableFilter := { v with freqParam := hz }

def FStateVariableFilter.setQ (v : FStateVariableFilter) (q : ℚ) :
    FStateVariableFilter := { v with qParam := q }

def FStateVariableFilter.setBandStopControl (v : FStateVariableFilter) (b : ℚ) :
    FStateVariableFilter := { v with bandStopParam := b }

/-- `update()`: recompute the active coefficients from the pending
parameters (spec 4.4). -/
def FStateVariableFilter.update (v : FStateVariableFilter) : FStateVariableFilter :=
  { v with fCoef := v.freqParam / v.sampleRate, qCoef := v.qParam }

/-- `processSample(x) -> y`, low-pass output, updating the internal
register. -/
def FStateVariableFilter.processSample (v : FStateVariableFilter) (x : ℚ) :
    ℚ × FStateVariableFilter :=
  let low := v.fCoef * x + (1 - v.fCoef) * v.z1
  (low, { v with z1 := low })

/-- `ProcessAudioFrame(&in, &out)` on a mono frame: one sample; the input
variable is left unchanged by the call. -/
def FStateVariableFilter.processAudioFrame (v : FStateVariableFilter) (x : ℚ) :
    ℚ × FStateVariableFilter := v.processSample x

/-- `ProcessAudio(in, n, out)`: the whole block, sequentially. -/
def FStateVariableFilter.processAudio (v : FStateVariableFilter) :
    List ℚ → List ℚ × FStateVariableFilter
  | [] => ([], v)
  | x :: xs =>
      let (y, v1) := v.processSample x
      let (ys, v2) := v1.processAudio xs
      (y :: ys, v2)

/-- Modelled from the spec (Parameter Smoother, section 2):
`Audio::FExponentialEase` is engine code outside the repository.  The value
eases exponentially toward the target; the ease factor is fixed at `1/1000`. -/
structure FExponentialEase where
  currentValue : ℚ
  targetValue : ℚ
deriving DecidableEq

def FExponentialEase.init (v : ℚ) : FExponentialEase :=
  { currentValue := v, targetValue := v }

def FExponentialEase.easeFactor : ℚ := 1 / 1000

def FExponentialEase.isDoneB (e : FExponentialEase) : Bool :=
  e.currentValue = e.targetValue

def FExponentialEase.peekCurrentValue (e : FExponentialEase) : ℚ := e.currentValue

def FExponentialEase.getNextValue (e : FExponentialEase) : ℚ × FExponentialEase :=
  if e.currentValue = e.targetValue then (e.currentValue, e)
  else
    let c := e.currentValue + FExponentialEase.easeFactor * (e.targetValue - e.currentValue)
    (c, { e with currentValue := c })

def FExponentialEase.setValue (e : FExponentialEase) (t : ℚ) : FExponentialEase :=
  { e with targetValue := t }

/-- The four fixed input diffusers (`DattorroAllPassFilters`). -/
abbrev APF4 := FDelayAPF × FDelayAPF × FDelayAPF × FDelayAPF

/-- `Execute` lines 583-593: each of the four input diffusers processes the
same low-passed sample and the four outputs are accumulated into
`AllPassProcessedSample` (the loop variable `ProcessedSample` is not
reassigned inside the loop). -/
def dattorroParallel (a : APF4) (x : ℚ) : ℚ × APF4 :=
  let (y0, a0) := a.1.processAudioSample x
  let (y1, a1) := a.2.1.processAudioSample x
  let (y2, a2) := a.2.2.1.processAudioSample x
  let (y3, a3) := a.2.2.2.processAudioSample x
  (y0 + y1 + y2 + y3, (a0, a1, a2, a3))

/-- Follows the spec's words (claim C2): the four input diffusers chained
sequentially, each diffuser's input being the previous diffuser's output.
This is the comparison definition for the refinement claim; the source's
own diffusion step is `dattorroParallel`. -/
def dattorroCascade (a : APF4) (x : ℚ) : ℚ × APF4 :=
  let (y0, a0) := a.1.processAudioSample x
  let (y1, a1) := a.2.1.processAudioSample y0
  let (y2, a2) := a.2.2.1.processAudioSample y1
  let (y3, a3) := a.2.2.2.processAudioSample y2
  (y3, (a0, a1, a2, a3))

/-- `Execute` lines 612-616 / 665-669: the feedback register is summed with
the diffused sample only when the register is not exactly zero. -/
def branchSum (processed fb : ℚ) : ℚ := if fb ≠ 0 then processed + fb else processed

/-- The host-supplied control parameters, read once per `Execute` call
through the float read references. -/
structure Params where
  preDelayTime : ℚ
  preLowPassFilter : ℚ
  lowPassCutoff : ℚ
  allPassCutoff : ℚ
  inputDiffusion1 : ℚ
  inputDiffusion2 : ℚ
  decayRate : ℚ
  feedbackDelay1 : ℚ
  decayDiffusion1 : ℚ
  decayDiffusion2 : ℚ
  decayDamping : ℚ
  randomDelay : ℚ
  feedbackDelay2 : ℚ
  finalDelayLeft : ℚ
  finalDelayRight : ℚ
  wetValue : ℚ
  dryValue : ℚ
deriving DecidableEq

/-- The mutable state of `FReverberationOperator`. -/
structure OpState where
  sampleRate : ℚ
  delayBuffer : FDelay
  currentDelayLength : FExponentialEase
  phasorPhase : ℚ
  phasorPhaseIncrement : ℚ
  lpVariableFilter : FStateVariableFilter
  previousFrequency : ℚ
  previousResonance : ℚ
  previousBandStopControl : ℚ
  previousAllPassFrequency : ℚ
  previousAllPassResonance : ℚ
  apf0 : FDelayAPF
  apf1 : FDelayAPF
  apf2 : FDelayAPF
  apf3 : FDelayAPF
  decayDiffusionFilter1Left : FDelayAPF
  decayDiffusionFilter2Left : FDelayAPF
  decayDiffusionFilter1Right : FDelayAPF
  decayDiffusionFilter2Right : FDelayAPF
  postLPFFeedbackDelayLeft : FDelay
  postLPFFeedbackDelayRight : FDelay
  feedbackDelayLeft : FDelay
  feedbackDelayRight : FDelay
  feedbackDelayEaseLeft : FExponentialEase
  feedbackDelayEaseRight : FExponentialEase
  dampingMultiplicationValue : ℚ
  lpDampingFilter : FStateVariableFilter
  feedbackLeft : ℚ
  feedbackRight : ℚ
deriving DecidableEq

/-- `LowPassFilter()` (lines 389-415): memoized coefficient refresh of the
pre-diffusion low-pass filter and of the damping filter. -/
def lowPassFilterUpdate (p : Params) (s : OpState) : OpState :=
  let currentFrequency := qclamp p.lowPassCutoff 0 (1/2 * s.sampleRate)
  let currentBandStopControl := qclamp 0 0 1
  if !(nearlyEqual s.previousFrequency currentFrequency) ||
     !(nearlyEqual s.previousBandStopControl currentBandStopControl) then
    let lpv := ((((s.lpVariableFilter.setQ (1 - p.preLowPassFilter)).setFrequency
        p.lowPassCutoff).setBandStopControl currentBandStopControl).update)
    let lpd := (s.lpDampingFilter.setFrequency (p.lowPassCutoff / 2)).setQ p.decayDamping
    let lpv := lpv.setBandStopControl currentBandStopControl
    let lpd := lpd.update
    { s with lpVariableFilter := lpv, lpDampingFilter := lpd,
             previousFrequency := currentFrequency,
             previousBandStopControl := currentBandStopControl }
  else s

/-- `AllPassFilter()` (lines 417-436): memoized configuration of the four
input diffusers.  The guard compares `PreviousFrequency` and
`PreviousResonance` (the low-pass memo fields), exactly as the source does. -/
def allPassFilterUpdate (p : Params) (s : OpState) : OpState :=
  let currentFrequency := qclamp p.allPassCutoff 0 (1/2 * s.sampleRate)
  let currentResonance := qclamp p.inputDiffusion1 0 10
  if !(nearlyEqual s.previousFrequency currentFrequency) ||
     !(nearlyEqual s.previousResonance currentResonance) then
    { s with
      apf0 := (s.apf0.setG p.inputDiffusion1).setDelaySamples 142
      apf1 := (s.apf1.setG p.inputDiffusion1).setDelaySamples 379
      apf2 := (s.apf2.setG p.inputDiffusion2).setDelaySamples 107
      apf3 := (s.apf3.setG p.inputDiffusion2).setDelaySamples 277
      previousAllPassFrequency := currentFrequency
      previousAllPassResonance := currentResonance }
  else s

/-- `WriteDelaysAndInc` (lines 488-516). -/
def writeDelaysAndInc (s : OpState)
    (processedSample firstLeft firstRight finalLeft finalRight : ℚ) : OpState :=
  { s with
    delayBuffer := s.delayBuffer.writeDelayAndInc processedSample
    apf0 := s.apf0.writeDelayAndInc processedSample
    apf1 := s.apf1.writeDelayAndInc processedSample
    apf2 := s.apf2.writeDelayAndInc processedSample
    apf3 := s.apf3.writeDelayAndInc processedSample
    feedbackDelayLeft := s.feedbackDelayLeft.writeDelayAndInc firstLeft
    feedbackDelayRight := s.feedbackDelayRight.writeDelayAndInc firstRight
    decayDiffusionFilter1Left := s.decayDiffusionFilter1Left.writeDelayAndInc firstLeft
    decayDiffusionFilter2Left := s.decayDiffusionFilter2Left.writeDelayAndInc firstLeft
    decayDiffusionFilter1Right := s.decayDiffusionFilter1Right.writeDelayAndInc firstRight
    decayDiffusionFilter2Right := s.decayDiffusionFilter2Right.writeDelayAndInc firstRight
    postLPFFeedbackDelayLeft := s.postLPFFeedbackDelayLeft.writeDelayAndInc finalLeft
    postLPFFeedbackDelayRight := s.postLPFFeedbackDelayRight.writeDelayAndInc finalRight
    feedbackLeft := finalRight
    feedbackRight := finalLeft }

/-- The intermediate values of one iteration of the per-sample loop of
`Execute` (lines 567-729), named after the local variables of the source. -/
structure SampleTrace where
  processedSample : ℚ
  sample1 : ℚ
  sample2 : ℚ
  sumLeft : ℚ
  firstLeft : ℚ
  feedbackSampleLeft : ℚ
  lpInLeft : ℚ
  lpOutLeft : ℚ
  deadDecayLeft : ℚ
  d2InLeft : ℚ
  finalTapLeft : ℚ
  finalLeft : ℚ
  sumRight : ℚ
  firstRight : ℚ
  feedbackSampleRight : ℚ
  lpInRight : ℚ
  lpOutRight : ℚ
  deadDecayRight : ℚ
  d2InRight : ℚ
  finalTapRight : ℚ
  finalRight : ℚ
  mixed : ℚ
deriving DecidableEq

/-- One iteration of the per-sample loop of `Execute` (lines 567-729),
parameterized by the input-diffusion step (`diffuse`, lines 583-593) and by
the feedback summing step (`sumFB`, lines 612-616 and 665-669); the source
instantiates them with `dattorroParallel` and `branchSum`. -/
def execSampleCore (diffuse : APF4 → ℚ → ℚ × APF4) (sumFB : ℚ → ℚ → ℚ)
    (s : OpState) (p : Params) (originalSample lowPassSample : ℚ) :
    SampleTrace × OpState :=
  let cdl := if s.currentDelayLength.isDoneB then s.currentDelayLength
             else (s.currentDelayLength.getNextValue).2
  let fel := if s.feedbackDelayEaseLeft.isDoneB then s.feedbackDelayEaseLeft
             else (s.feedbackDelayEaseLeft.getNextValue).2
  let fer := if s.feedbackDelayEaseRight.isDoneB then s.feedbackDelayEaseRight
             else (s.feedbackDelayEaseRight.getNextValue).2
  let (processedSample, apfs) := diffuse (s.apf0, s.apf1, s.apf2, s.apf3) lowPassSample
  let phasorReadPosition := cdl.peekCurrentValue
  let delayTapRead1 := qmax phasorReadPosition 0
  let delayTapRead2 := qfmod (qmax (phasorReadPosition + 100) 0)
      s.delayBuffer.getDelayLengthSamples
  let sample1 := s.delayBuffer.readDelayAt delayTapRead1
  let sample2 := s.delayBuffer.readDelayAt delayTapRead2
  -- Left side of the feedback tail
  let sumLeft := sumFB processedSample s.feedbackLeft
  let (firstLeft, d1L) := s.decayDiffusionFilter1Left.processAudioSample sumLeft
  let feedbackSampleLeft := s.feedbackDelayLeft.readDelayAt
      (qfmod (qmax fel.peekCurrentValue 0) s.feedbackDelayLeft.getDelayLengthSamples)
  let lpInLeft := firstLeft * s.dampingMultiplicationValue
  let (lpOutLeft, lpd1) := s.lpDampingFilter.processAudioFrame lpInLeft
  let deadDecayLeft := lpInLeft * p.decayRate
  let d2InLeft := lpOutLeft
  let (d2OutLeft, d2L) := s.decayDiffusionFilter2Left.processAudioSample d2InLeft
  let finalTapLeft := s.postLPFFeedbackDelayLeft.readDelayAt
      (qclamp p.finalDelayLeft 0 2000)
  let finalLeft := d2OutLeft * p.decayRate
  -- Right side of the feedback tail
  let sumRight := sumFB processedSample s.feedbackRight
  let (firstRight, d1R) := s.decayDiffusionFilter1Right.processAudioSample sumRight
  let feedbackSampleRight := s.feedbackDelayRight.readDelayAt
      (qfmod (qmax fer.peekCurrentValue 0) s.feedbackDelayRight.getDelayLengthSamples)
  let lpInRight := firstRight * s.dampingMultiplicationValue
  let (lpOutRight, lpd2) := lpd1.processAudioFrame lpInRight
  let deadDecayRight := lpInRight * p.decayRate
  let d2InRight := lpOutRight
  let (d2OutRight, d2R) := s.decayDiffusionFilter2Right.processAudioSample d2InRight
  let finalTapRight := s.postLPFFeedbackDelayRight.readDelayAt
      (qclamp p.finalDelayRight 0 2000)
  let finalRight := d2OutRight * p.decayRate
  -- Process and write outputs
  let mixed := originalSample * p.dryValue + (sample1 + sample2) * p.wetValue
      + feedbackSampleLeft * p.wetValue + feedbackSampleRight * p.wetValue
      + finalTapLeft * p.wetValue + finalTapRight * p.wetValue
  let s1 := { s with
    currentDelayLength := cdl
    feedbackDelayEaseLeft := fel
    feedbackDelayEaseRight := fer
    apf0 := apfs.1, apf1 := apfs.2.1, apf2 := apfs.2.2.1, apf3 := apfs.2.2.2
    decayDiffusionFilter1Left := d1L
    decayDiffusionFilter2Left := d2L
    decayDiffusionFilter1Right := d1R
    decayDiffusionFilter2Right := d2R
    lpDampingFilter := lpd2 }
  let s2 := writeDelaysAndInc s1 processedSample firstLeft firstRight finalLeft finalRight
  ({ processedSample := processedSample, sample1 := sample1, sample2 := sample2
     sumLeft := sumLeft, firstLeft := firstLeft
     feedbackSampleLeft := feedbackSampleLeft
     lpInLeft := lpInLeft, lpOutLeft := lpOutLeft
     deadDecayLeft := deadDecayLeft, d2InLeft := d2InLeft
     finalTapLeft := finalTapLeft, finalLeft := finalLeft
     sumRight := sumRight, firstRight := firstRight
     feedbackSampleRight := feedbackSampleRight
     lpInRight := lpInRight, lpOutRight := lpOutRight
     deadDecayRight := deadDecayRight, d2InRight := d2InRight
     finalTapRight := finalTapRight, finalRight := finalRight
     mixed := mixed }, s2)

/-- The per-sample loop body exactly as the source has it. -/
def execSample : OpState → Params → ℚ → ℚ → SampleTrace × OpState :=
  execSampleCore dattorroParallel branchSum

/-- Variant of the loop body that always adds the feedback register
(comparison definition for claim C9). -/
def execSampleUncond : OpState → Params → ℚ → ℚ → SampleTrace × OpState :=
  execSampleCore dattorroParallel (fun a b => a + b)

/-- Variant of the loop body with the spec's sequential diffusion cascade
(comparison definition for claim C2). -/
def execSampleCascade : OpState → Params → ℚ → ℚ → SampleTrace × OpState :=
  execSampleCore dattorroCascade branchSum

/-- The per-sample loop of `Execute` over the zipped (input, low-passed)
samples, parameterized by the loop body. -/
def execLoopWith (step : OpState → Params → ℚ → ℚ → SampleTrace × OpState)
    (p : Params) : OpState → List (ℚ × ℚ) → List ℚ × OpState
  | s, [] => ([], s)
  | s, (orig, lp) :: rest =>
      let (tr, s1) := step s p orig lp
      let (outs, s2) := execLoopWith step p s1 rest
      (tr.mixed :: outs, s2)

/-- The prelude of `Execute` (lines 518-565): per-block parameter refresh,
memoized filter updates, pre-diffusion scaling and low-pass processing of
the whole block, returning the state at loop entry and the low-passed
block. -/
def executePreLoop (s : OpState) (p : Params) (input : List ℚ) :
    OpState × List ℚ :=
  let s := { s with dampingMultiplicationValue := 1 - p.decayDamping }
  let delayLength := p.preDelayTime
  let nv := (s.currentDelayLength.getNextValue).1
  let cdl0 := (s.currentDelayLength.getNextValue).2
  let cdl := if !(nearlyEqual delayLength nv) then cdl0.setValue delayLength else cdl0
  let s := { s with currentDelayLength := cdl }
  let s := lowPassFilterUpdate p s
  let scaledAudio := input.map (fun x => x * p.preLowPassFilter)
  let lowPassAudio := (s.lpVariableFilter.processAudio scaledAudio).1
  let lpv := (s.lpVariableFilter.processAudio scaledAudio).2
  let s := { s with lpVariableFilter := lpv }
  let s := allPassFilterUpdate p s
  let newDelayLengthClamped := qclamp p.preDelayTime 10 100
  let nv2 := (s.currentDelayLength.getNextValue).1
  let cdl2 := (s.currentDelayLength.getNextValue).2
  let s := { s with currentDelayLength := cdl2 }
  let s := if !(nearlyEqual newDelayLengthClamped nv2) then
      { s with phasorPhaseIncrement := 1 / cdl2.peekCurrentValue / s.sampleRate }
    else s
  (s, lowPassAudio)

/-- `Execute` (lines 518-730), parameterized by the loop body. -/
def executeBlockWith (step : OpState → Params → ℚ → ℚ → SampleTrace × OpState)
    (s : OpState) (p : Params) (input : List ℚ) : List ℚ × OpState :=
  execLoopWith step p (executePreLoop s p input).1
    (input.zip (executePreLoop s p input).2)

/-- `Execute` exactly as the source has it. -/
def executeBlock : OpState → Params → List ℚ → List ℚ × OpState :=
  executeBlockWith execSample

/-- `Execute` with the spec's sequential diffusion cascade (comparison
definition for claim C2). -/
def executeBlockCascade : OpState → Params → List ℚ → List ℚ × OpState :=
  executeBlockWith execSampleCascade

/-- The operator constructor (lines 253-327) together with
`InitialiseFeedbackParameters` (lines 438-486).  The two
`FMath::RandRange(0, DelayRate)` draws are taken as explicit inputs
`randL`, `randR`. -/
def initState (fs : ℚ) (p : Params) (randL randR : ℕ) : OpState :=
  { sampleRate := fs
    delayBuffer := (FDelay.init fs (1/1000 * p.preDelayTime)).setDelaySamples p.preDelayTime
    currentDelayLength := FExponentialEase.init (qclamp p.preDelayTime 10 100)
    phasorPhase := 0
    phasorPhaseIncrement := 1 / qclamp p.preDelayTime 10 100 / fs
    lpVariableFilter := FStateVariableFilter.init fs
    previousFrequency := -1
    previousResonance := -1
    previousBandStopControl := -1
    previousAllPassFrequency := -1
    previousAllPassResonance := -1
    apf0 := FDelayAPF.initDefault fs
    apf1 := FDelayAPF.initDefault fs
    apf2 := FDelayAPF.initDefault fs
    apf3 := FDelayAPF.initDefault fs
    decayDiffusionFilter1Left :=
      (((FDelayAPF.init fs (1/1000 * p.preDelayTime)).setG p.decayDiffusion1).setDelaySamples
        (250 + (randL : ℚ)))
    decayDiffusionFilter2Left :=
      (((FDelayAPF.init fs (1/1000 * p.preDelayTime)).setG p.decayDiffusion1).setDelaySamples 770)
    decayDiffusionFilter1Right :=
      (((FDelayAPF.init fs (1/1000 * p.preDelayTime)).setG p.decayDiffusion1).setDelaySamples
        (440 + (randR : ℚ)))
    decayDiffusionFilter2Right :=
      (((FDelayAPF.init fs (1/1000 * p.preDelayTime)).setG p.decayDiffusion2).setDelaySamples 960)
    postLPFFeedbackDelayLeft := (FDelay.initDefault fs).setDelaySamples p.finalDelayLeft
    postLPFFeedbackDelayRight := (FDelay.initDefault fs).setDelaySamples p.finalDelayRight
    feedbackDelayLeft := (FDelay.init fs (1/1000 * p.feedbackDelay1)).setDelaySamples p.feedbackDelay1
    feedbackDelayRight := (FDelay.init fs (1/1000 * p.feedbackDelay2)).setDelaySamples p.feedbackDelay2
    feedbackDelayEaseLeft := (FExponentialEase.init p.feedbackDelay1).setValue p.feedbackDelay1
    feedbackDelayEaseRight := (FExponentialEase.init p.feedbackDelay2).setValue p.feedbackDelay2
    dampingMultiplicationValue := 1 - p.decayDamping
    lpDampingFilter := FStateVariableFilter.init fs
    feedbackLeft := 0
    feedbackRight := 0 }

/-- Follows the claim's words (C5): the per-sample loop body with the right
channel's damping low-pass filter given its own state `lpDampRight` instead
of sharing `lpDampingFilter` with the left channel.  Everything else is as
in `execSampleCore dattorroParallel branchSum`; the function returns the
final right-filter state alongside the operator state. -/
def execSampleSplitDamp (s : OpState) (lpDampRight : FStateVariableFilter)
    (p : Params) (originalSample lowPassSample : ℚ) :
    SampleTrace × OpState × FStateVariableFilter :=
  let cdl := if s.currentDelayLength.isDoneB then s.currentDelayLength
             else (s.currentDelayLength.getNextValue).2
  let fel := if s.feedbackDelayEaseLeft.isDoneB then s.feedbackDelayEaseLeft
             else (s.feedbackDelayEaseLeft.getNextValue).2
  let fer := if s.feedbackDelayEaseRight.isDoneB then s.feedbackDelayEaseRight
             else (s.feedbackDelayEaseRight.getNextValue).2
  let (processedSample, apfs) := dattorroParallel (s.apf0, s.apf1, s.apf2, s.apf3) lowPassSample
  let phasorReadPosition := cdl.peekCurrentValue
  let delayTapRead1 := qmax phasorReadPosition 0
  let delayTapRead2 := qfmod (qmax (phasorReadPosition + 100) 0)
      s.delayBuffer.getDelayLengthSamples
  let sample1 := s.delayBuffer.readDelayAt delayTapRead1
  let sample2 := s.delayBuffer.readDelayAt delayTapRead2
  let sumLeft := branchSum processedSample s.feedbackLeft
  let (firstLeft, d1L) := s.decayDiffusionFilter1Left.processAudioSample sumLeft
  let feedbackSampleLeft := s.feedbackDelayLeft.readDelayAt
      (qfmod (qmax fel.peekCurrentValue 0) s.feedbackDelayLeft.getDelayLengthSamples)
  let lpInLeft := firstLeft * s.dampingMultiplicationValue
  let (lpOutLeft, lpd1) := s.lpDampingFilter.processAudioFrame lpInLeft
  let deadDecayLeft := lpInLeft * p.decayRate
  let d2InLeft := lpOutLeft
  let (d2OutLeft, d2L) := s.decayDiffusionFilter2Left.processAudioSample d2InLeft
  let finalTapLeft := s.postLPFFeedbackDelayLeft.readDelayAt
      (qclamp p.finalDelayLeft 0 2000)
  let finalLeft := d2OutLeft * p.decayRate
  let sumRight := branchSum processedSample s.feedbackRight
  let (firstRight, d1R) := s.decayDiffusionFilter1Right.processAudioSample sumRight
  let feedbackSampleRight := s.feedbackDelayRight.readDelayAt
      (qfmod (qmax fer.peekCurrentValue 0) s.feedbackDelayRight.getDelayLengthSamples)
  let lpInRight := firstRight * s.dampingMultiplicationValue
  let (lpOutRight, lpdR) := lpDampRight.processAudioFrame lpInRight
  let deadDecayRight := lpInRight * p.decayRate
  let d2InRight := lpOutRight
  let (d2OutRight, d2R) := s.decayDiffusionFilter2Right.processAudioSample d2InRight
  let finalTapRight := s.postLPFFeedbackDelayRight.readDelayAt
      (qclamp p.finalDelayRight 0 2000)
  let finalRight := d2OutRight * p.decayRate
  let mixed := originalSample * p.dryValue + (sample1 + sample2) * p.wetValue
      + feedbackSampleLeft * p.wetValue + feedbackSampleRight * p.wetValue
      + finalTapLeft * p.wetValue + finalTapRight * p.wetValue
  let s1 := { s with
    currentDelayLength := cdl
    feedbackDelayEaseLeft := fel
    feedbackDelayEaseRight := fer
    apf0 := apfs.1, apf1 := apfs.2.1, apf2 := apfs.2.2.1, apf3 := apfs.2.2.2
    decayDiffusionFilter1Left := d1L
    decayDiffusionFilter2Left := d2L
    decayDiffusionFilter1Right := d1R
    decayDiffusionFilter2Right := d2R
    lpDampingFilter := lpd1 }
  let s2 := writeDelaysAndInc s1 processedSample firstLeft firstRight finalLeft finalRight
  ({ processedSample := processedSample, sample1 := sample1, sample2 := sample2
     sumLeft := sumLeft, firstLeft := firstLeft
     feedbackSampleLeft := feedbackSampleLeft
     lpInLeft := lpInLeft, lpOutLeft := lpOutLeft
     deadDecayLeft := deadDecayLeft, d2InLeft := d2InLeft
     finalTapLeft := finalTapLeft, finalLeft := finalLeft
     sumRight := sumRight, firstRight := firstRight
     feedbackSampleRight := feedbackSampleRight
     lpInRight := lpInRight, lpOutRight := lpOutRight
     deadDecayRight := deadDecayRight, d2InRight := d2InRight
     finalTapRight := finalTapRight, finalRight := finalRight
     mixed := mixed }, s2, lpdR)

/-- Concrete sample rate used by the concrete evaluation theorems. -/
def testFs : ℚ := 10

/-- Concrete control parameters used by the concrete evaluation theorems
(chosen inside the recognized ranges except where a theorem says otherwise). -/
def testParams : Params :=
  { preDelayTime := 200
    preLowPassFilter := 1
    lowPassCutoff := 5
    allPassCutoff := 2/5
    inputDiffusion1 := 3/4
    inputDiffusion2 := 5/8
    decayRate := 1/2
    feedbackDelay1 := 20
    decayDiffusion1 := 7/10
    decayDiffusion2 := 1/2
    decayDamping := 1/200
    randomDelay := 16
    feedbackDelay2 := 30
    finalDelayLeft := 0
    finalDelayRight := 0
    wetValue := 13/20
    dryValue := 7/20 }

/-- Control parameters for the C7 determinism counterexample: as
`testParams` but with a pre-delay of 101 ms, which at the test sample rate
gives the randomly-offset feedback-tail diffusers a two-slot buffer, so
that the two possible random delay draws 0 and 1 make the diffusers read
different slots. -/
def c7Params : Params := { testParams with preDelayTime := 101 }

/-- Control parameters for the concrete C8 run: as `testParams` but with a
pre-delay inside the delay-length smoother's clamp range. -/
def c8Params : Params := { testParams with preDelayTime := 11 }

/-- A buffer holding only zeros. -/
def zeroBuf (l : List ℚ) : Prop := ∀ a ∈ l, a = 0

/-- A delay line at rest: its circular buffer is zero-filled. -/
def zeroDelay (d : FDelay) : Prop := zeroBuf d.buffer

/-- An all-pass diffuser at rest. -/
def zeroAPF (a : FDelayAPF) : Prop := zeroDelay a.delay

/-- A low-pass filter at rest: its internal register is zero. -/
def zeroSVF (v : FStateVariableFilter) : Prop := v.z1 = 0

/-- The whole operator at rest: every delay buffer zero-filled, both filter
registers zero, and both feedback registers zero (the condition that holds
immediately after initialization). -/
def zeroState (s : OpState) : Prop :=
  zeroDelay s.delayBuffer ∧
  zeroAPF s.apf0 ∧ zeroAPF s.apf1 ∧ zeroAPF s.apf2 ∧ zeroAPF s.apf3 ∧
  zeroAPF s.decayDiffusionFilter1Left ∧ zeroAPF s.decayDiffusionFilter2Left ∧
  zeroAPF s.decayDiffusionFilter1Right ∧ zeroAPF s.decayDiffusionFilter2Right ∧
  zeroDelay s.postLPFFeedbackDelayLeft ∧ zeroDelay s.postLPFFeedbackDelayRight ∧
  zeroDelay s.feedbackDelayLeft ∧ zeroDelay s.feedbackDelayRight ∧
  zeroSVF s.lpVariableFilter ∧ zeroSVF s.lpDampingFilter ∧
  s.feedbackLeft = 0 ∧ s.feedbackRight = 0

/-- Replace the pre-diffusion low-pass filter state by a fixed value; two
operator states with the same scrub agree on every field the per-sample
loop reads (the loop never touches `lpVariableFilter`). -/
def scrubLPV (s : OpState) : OpState :=
  { s with lpVariableFilter := FStateVariableFilter.init 0 }

/-- The integer delay-rate bound `const int32 DelayRate = *RandomDelay`
(line 470): the number of possible random offsets for the tail diffusers. -/
def delayRateInt (p : Params) : ℤ := ratTrunc p.randomDelay

theorem branchSum_eq (a b : ℚ) : branchSum a b = a + b := by
  by_cases hb : b = 0 <;> simp [branchSum, hb]

/-- C9: in the per-sample feedback summing of `Execute`, skipping the
addition of a channel's feedback register when the register is exactly zero
is equivalent to unconditionally adding it: the loop body equals the
unconditional variant, and the value entering each channel's first decay
diffuser is always the diffused sample plus that channel's register. -/
theorem claim_C9_feedback_sum_refinement (s : OpState) (p : Params) (o l : ℚ) :
    execSample s p o l = execSampleUncond s p o l ∧
    (execSample s p o l).1.sumLeft
      = (execSample s p o l).1.processedSample + s.feedbackLeft ∧
    (execSample s p o l).1.sumRight
      = (execSample s p o l).1.processedSample + s.feedbackRight := by
  have hb : branchSum = fun a b => a + b := by
    funext a b; exact branchSum_eq a b
  refine ⟨?_, branchSum_eq _ _, branchSum_eq _ _⟩
  show execSampleCore dattorroParallel branchSum s p o l
      = execSampleCore dattorroParallel (fun a b => a + b) s p o l
  rw [hb]

/-- C4 (amended): at the end of every sample the cross-coupled registers
receive the post-diffusion, decayed sample of the opposite channel - the
same value written into that channel's final delay line - while the
final-tap value mixed into the output is the pre-state read of that delay
line; the stored value is the one summed with the diffused input at step 1
of the next sample. -/
theorem claim_C4_amended (s : OpState) (p : Params) (o l : ℚ) :
    (execSample s p o l).2.feedbackLeft = (execSample s p o l).1.finalRight ∧
    (execSample s p o l).2.feedbackRight = (execSample s p o l).1.finalLeft ∧
    (execSample s p o l).2.postLPFFeedbackDelayLeft
      = s.postLPFFeedbackDelayLeft.writeDelayAndInc ((execSample s p o l).1.finalLeft) ∧
    (execSample s p o l).2.postLPFFeedbackDelayRight
      = s.postLPFFeedbackDelayRight.writeDelayAndInc ((execSample s p o l).1.finalRight) ∧
    (execSample s p o l).1.finalTapLeft
      = s.postLPFFeedbackDelayLeft.readDelayAt (qclamp p.finalDelayLeft 0 2000) ∧
    (execSample s p o l).1.finalTapRight
      = s.postLPFFeedbackDelayRight.readDelayAt (qclamp p.finalDelayRight 0 2000) ∧
    (execSample s p o l).1.sumLeft
      = (execSample s p o l).1.processedSample + s.feedbackLeft ∧
    (execSample s p o l).1.sumRight
      = (execSample s p o l).1.processedSample + s.feedbackRight :=
  ⟨rfl, rfl, rfl, rfl, rfl, rfl, branchSum_eq _ _, branchSum_eq _ _⟩

/-- C5 (amended): the tail diffusers and delay lines own per-channel state,
but the damping low-pass filter is a single shared instance, threaded
through the left channel and then the right channel of the same sample:
the right channel's damped output is computed from the filter state the
left channel's processing just produced. -/
theorem claim_C5_amended (s : OpState) (p : Params) (o l : ℚ) :
    (execSample s p o l).1.lpOutLeft
      = (s.lpDampingFilter.processAudioFrame ((execSample s p o l).1.lpInLeft)).1 ∧
    (execSample s p o l).1.lpOutRight
      = ((s.lpDampingFilter.processAudioFrame
            ((execSample s p o l).1.lpInLeft)).2.processAudioFrame
          ((execSample s p o l).1.lpInRight)).1 ∧
    (execSample s p o l).2.lpDampingFilter
      = ((s.lpDampingFilter.processAudioFrame
            ((execSample s p o l).1.lpInLeft)).2.processAudioFrame
          ((execSample s p o l).1.lpInRight)).2 ∧
    (execSample s p o l).2.decayDiffusionFilter1Right
      = ((s.decayDiffusionFilter1Right.processAudioSample
            ((execSample s p o l).1.sumRight)).2).writeDelayAndInc
          ((execSample s p o l).1.firstRight) ∧
    (execSample s p o l).2.decayDiffusionFilter2Right
      = ((s.decayDiffusionFilter2Right.processAudioSample
            ((execSample s p o l).1.d2InRight)).2).writeDelayAndInc
          ((execSample s p o l).1.firstRight) :=
  ⟨rfl, rfl, rfl, rfl, rfl⟩

theorem executePreLoop_tailDelays (s : OpState) (p : Params) (x : List ℚ) :
    (executePreLoop s p x).1.decayDiffusionFilter1Left.delay.delaySamples
        = s.decayDiffusionFilter1Left.delay.delaySamples ∧
    (executePreLoop s p x).1.decayDiffusionFilter1Right.delay.delaySamples
        = s.decayDiffusionFilter1Right.delay.delaySamples ∧
    (executePreLoop s p x).1.decayDiffusionFilter2Left.delay.delaySamples
        = s.decayDiffusionFilter2Left.delay.delaySamples ∧
    (executePreLoop s p x).1.decayDiffusionFilter2Right.delay.delaySamples
        = s.decayDiffusionFilter2Right.delay.delaySamples := by
  unfold executePreLoop lowPassFilterUpdate allPassFilterUpdate
  dsimp only
  refine ⟨?_, ?_, ?_, ?_⟩ <;> (repeat' split) <;> rfl

theorem execLoop_tailDelays (p : Params) :
    ∀ (xs : List (ℚ × ℚ)) (s : OpState),
    (execLoopWith execSample p s xs).2.decayDiffusionFilter1Left.delay.delaySamples
        = s.decayDiffusionFilter1Left.delay.delaySamples ∧
    (execLoopWith execSample p s xs).2.decayDiffusionFilter1Right.delay.delaySamples
        = s.decayDiffusionFilter1Right.delay.delaySamples ∧
    (execLoopWith execSample p s xs).2.decayDiffusionFilter2Left.delay.delaySamples
        = s.decayDiffusionFilter2Left.delay.delaySamples ∧
    (execLoopWith execSample p s xs).2.decayDiffusionFilter2Right.delay.delaySamples
        = s.decayDiffusionFilter2Right.delay.delaySamples := by
  intro xs
  induction xs with
  | nil => intro s; exact ⟨rfl, rfl, rfl, rfl⟩
  | cons hd tl ih =>
      intro s
      obtain ⟨i1, i2, i3, i4⟩ := ih (execSample s p hd.1 hd.2).2
      refine ⟨?_, ?_, ?_, ?_⟩ <;>
        simp only [execLoopWith] <;>
        first
          | exact i1.trans rfl
          | exact i2.trans rfl
          | exact i3.trans rfl
          | exact i4.trans rfl

/-- C8 (amended): the tail diffusers' effective delay lengths are fixed at
initialization - base delays 250 and 440 plus the per-instance random
offsets drawn from the host RNG (bounded by the Random Delay parameter),
and 770 and 960 for the second pair - and stay at those values through
every sample and every block of processing; no time-varying excursion is
applied. -/
theorem claim_C8_amended (fs : ℚ) (p : Params) (rL rR : ℕ) (s : OpState)
    (q : Params) (x : List ℚ) (o l : ℚ) :
    ((initState fs p rL rR).decayDiffusionFilter1Left.delay.delaySamples
        = 250 + (rL : ℚ) ∧
     (initState fs p rL rR).decayDiffusionFilter1Right.delay.delaySamples
        = 440 + (rR : ℚ) ∧
     (initState fs p rL rR).decayDiffusionFilter2Left.delay.delaySamples = 770 ∧
     (initState fs p rL rR).decayDiffusionFilter2Right.delay.delaySamples = 960) ∧
    ((execSample s q o l).2.decayDiffusionFilter1Left.delay.delaySamples
        = s.decayDiffusionFilter1Left.delay.delaySamples ∧
     (execSample s q o l).2.decayDiffusionFilter1Right.delay.delaySamples
        = s.decayDiffusionFilter1Right.delay.delaySamples ∧
     (execSample s q o l).2.decayDiffusionFilter2Left.delay.delaySamples
        = s.decayDiffusionFilter2Left.delay.delaySamples ∧
     (execSample s q o l).2.decayDiffusionFilter2Right.delay.delaySamples
        = s.decayDiffusionFilter2Right.delay.delaySamples) ∧
    ((executeBlock s q x).2.decayDiffusionFilter1Left.delay.delaySamples
        = s.decayDiffusionFilter1Left.delay.delaySamples ∧
     (executeBlock s q x).2.decayDiffusionFilter1Right.delay.delaySamples
        = s.decayDiffusionFilter1Right.delay.delaySamples ∧
     (executeBlock s q x).2.decayDiffusionFilter2Left.delay.delaySamples
        = s.decayDiffusionFilter2Left.delay.delaySamples ∧
     (executeBlock s q x).2.decayDiffusionFilter2Right.delay.delaySamples
        = s.decayDiffusionFilter2Right.delay.delaySamples) := by
  refine ⟨⟨rfl, rfl, rfl, rfl⟩, ⟨rfl, rfl, rfl, rfl⟩, ?_⟩
  obtain ⟨l1, l2, l3, l4⟩ :=
    execLoop_tailDelays q (x.zip (executePreLoop s q x).2) (executePreLoop s q x).1
  obtain ⟨p1, p2, p3, p4⟩ := executePreLoop_tailDelays s q x
  exact ⟨l1.trans p1, l2.trans p2, l3.trans p3, l4.trans p4⟩

set_option maxRecDepth 30000 in
/-- C1: the host-supplied decay rate and damping values reach the
feedback-tail math unclamped, contradicting the clamp the spec and the
source's own parameter comments require.  Damping values 2 and 1 clamp to
the same boundary of `[0, 1]`, and decay values 2 and 3 both lie at or
above every value of `[0, 1)`, yet each pair produces different `Execute`
outputs - so the raw, unclamped values entered the filter math. -/
theorem claim_C1_unclamped_divergence :
    qclamp 2 0 1 = qclamp 1 0 1 ∧
    (executeBlock
        (initState testFs
          { testParams with preDelayTime := 11, finalDelayLeft := 1, decayDamping := 2 } 0 0)
        { testParams with preDelayTime := 11, finalDelayLeft := 1, decayDamping := 2 }
        [1, 0]).1 ≠
      (executeBlock
        (initState testFs
          { testParams with preDelayTime := 11, finalDelayLeft := 1, decayDamping := 1 } 0 0)
        { testParams with preDelayTime := 11, finalDelayLeft := 1, decayDamping := 1 }
        [1, 0]).1 ∧
    (1 : ℚ) ≤ 2 ∧ (1 : ℚ) ≤ 3 ∧
    (executeBlock
        (initState testFs
          { testParams with preDelayTime := 11, finalDelayLeft := 1, decayRate := 2 } 0 0)
        { testParams with preDelayTime := 11, finalDelayLeft := 1, decayRate := 2 }
        [1, 0]).1 ≠
      (executeBlock
        (initState testFs
          { testParams with preDelayTime := 11, finalDelayLeft := 1, decayRate := 3 } 0 0)
        { testParams with preDelayTime := 11, finalDelayLeft := 1, decayRate := 3 }
        [1, 0]).1 := by
  with_unfolding_all decide

set_option maxRecDepth 30000 in
/-- C2 (counterexample): running `Execute` with the claim's sequential
four-diffuser cascade in place of the source's diffusion step produces a
different output block on a concrete two-sample run, so the input diffusion
stage is not the sequential cascade the claim describes. -/
theorem claim_C2_counterexample :
    (executeBlockCascade
        (initState testFs { testParams with preDelayTime := 11 } 0 0)
        { testParams with preDelayTime := 11 } [1, 0]).1 ≠
      (executeBlock
        (initState testFs { testParams with preDelayTime := 11 } 0 0)
        { testParams with preDelayTime := 11 } [1, 0]).1 := by
  with_unfolding_all decide

set_option maxRecDepth 30000 in
/-- C3: in the left feedback-tail channel the decayed product never reaches
the second diffuser.  With decay rate 0 the claim's processing order would
feed `0 * lpOut = 0` into decay diffuser 2, but on this concrete reachable
state the value the code feeds into it equals the raw damping-filter output,
which is nonzero (the decay multiply at line 647 is a dead store overwritten
at line 651; decay is instead applied after the diffuser at line 661). -/
theorem claim_C3_undecayed_diffuser_input :
    (let p3 : Params := { testParams with preDelayTime := 11, decayRate := 0 }
     let tr : SampleTrace :=
       (execSample (executeBlock (initState testFs p3 0 0) p3 [1]).2 p3 0 1).1
     tr.d2InLeft = tr.lpOutLeft ∧ tr.lpOutLeft ≠ 0 ∧
       tr.d2InLeft ≠ p3.decayRate * tr.lpOutLeft) :=
  ⟨rfl, by with_unfolding_all decide⟩
set_option maxRecDepth 30000 in
/-- C4 (counterexample): on a concrete reachable state, the value the
per-sample loop stores into the right channel's feedback register is not
the left channel's final-tap read (the tap read is zero while the stored
post-diffusion decayed sample is not), refuting the claim that the
final-tap result is what gets stored. -/
theorem claim_C4_counterexample :
    (let pN : Params := { testParams with preDelayTime := 11 }
     (execSample (executeBlock (initState testFs pN 0 0) pN [1]).2 pN 0 1).2.feedbackRight
       ≠ (execSample (executeBlock (initState testFs pN 0 0) pN [1]).2
           pN 0 1).1.finalTapLeft) := by
  with_unfolding_all decide

set_option maxRecDepth 30000 in
/-- C5 (counterexample): on a concrete reachable state the right channel's
damped output differs between the source (one damping filter shared by both
channels) and the claim's architecture (a right channel owning its own
damping-filter state, here seeded with the same current state), so the
damping filter state is not per-channel. -/
theorem claim_C5_counterexample :
    (let pN : Params := { testParams with preDelayTime := 11 }
     let sN : OpState := (executeBlock (initState testFs pN 0 0) pN [1]).2
     (execSample sN pN 0 1).1.lpOutRight
       ≠ (execSampleSplitDamp sN sN.lpDampingFilter pN 0 1).1.lpOutRight) := by
  with_unfolding_all decide
set_option maxRecDepth 30000 in
/-- C8 (counterexample): a concrete processing run - the two-sample block
`[1, 0]` from the freshly initialized state with zero random draws -
after which the effective delay length of every feedback-tail diffuser
still equals the value fixed at initialization (250, 440, 770, 960),
refuting the claim that the effective delay length varies over the course
of processing. -/
theorem claim_C8_counterexample :
    (let s0 : OpState := initState testFs c8Params 0 0
     let s2 : OpState := (executeBlock s0 c8Params [1, 0]).2
     (s0.decayDiffusionFilter1Left.delay.delaySamples = 250 ∧
      s2.decayDiffusionFilter1Left.delay.delaySamples = 250) ∧
     (s0.decayDiffusionFilter1Right.delay.delaySamples = 440 ∧
      s2.decayDiffusionFilter1Right.delay.delaySamples = 440) ∧
     (s0.decayDiffusionFilter2Left.delay.delaySamples = 770 ∧
      s2.decayDiffusionFilter2Left.delay.delaySamples = 770) ∧
     (s0.decayDiffusionFilter2Right.delay.delaySamples = 960 ∧
      s2.decayDiffusionFilter2Right.delay.delaySamples = 960)) := by
  with_unfolding_all decide

set_option maxRecDepth 100000 in
/-- C7 (counterexample): two runs with identical initialization parameters
and the identical input block `[1, 0, 0]`, differing only in the
construction-time random delay draw for the left tail diffuser (0 versus 1,
both within the Random Delay bound 16), agree on the first two output
samples but differ on the third - identical construction parameters alone
do not determine the output. -/
theorem claim_C7_counterexample :
    (executeBlock (initState testFs c7Params 0 0) c7Params [1, 0, 0]).1
      = [7/20, 143/400, -1635088611/1024000000] ∧
    (executeBlock (initState testFs c7Params 1 0) c7Params [1, 0, 0]).1
      = [7/20, 143/400, -79248611/1024000000] ∧
    ((-1635088611 : ℚ)/1024000000 ≠ -79248611/1024000000) :=
  ⟨by with_unfolding_all rfl, by with_unfolding_all rfl,
   by with_unfolding_all decide⟩


theorem qclamp_nonneg_of (x lo hi : ℚ) (h1 : 0 ≤ lo) (h2 : 0 ≤ hi) :
    0 ≤ qclamp x lo hi := by
  unfold qclamp; split_ifs with ha hb
  · exact h1
  · exact le_trans h1 (le_of_not_lt ha)
  · exact h2

theorem nearlyEqual_negOne_clamp (x : ℚ) :
    nearlyEqual (-1) (qclamp x 0 10) = false := by
  have h0 : 0 ≤ qclamp x 0 10 := qclamp_nonneg_of x 0 10 le_rfl (by norm_num)
  have h1 : (-1 : ℚ) - qclamp x 0 10 < 0 := by linarith
  unfold nearlyEqual qabs
  rw [if_pos h1]
  simp only [decide_eq_false_iff_not, not_le]
  linarith

/-- C2 (amended): the input diffusion stage applies the four fixed all-pass
diffusers in parallel to the same low-passed sample and sums their outputs
(not a sequential cascade); the first two are configured with the input
diffusion 1 coefficient and the last two with input diffusion 2, at the
Dattorro reference delay lengths 142, 379, 107, 277 - the memoized
configuration always fires because `PreviousResonance` stays `-1` from
construction onward. -/
theorem claim_C2_amended (pp : Params) (s : OpState) (x : ℚ)
    (h : s.previousResonance = -1) :
    (∀ (fs : ℚ) (p : Params) (rL rR : ℕ),
        (initState fs p rL rR).previousResonance = -1) ∧
    (∀ (t : OpState) (q : Params) (o l : ℚ),
        (execSample t q o l).2.previousResonance = t.previousResonance) ∧
    ((allPassFilterUpdate pp s).apf0.g = pp.inputDiffusion1 ∧
     (allPassFilterUpdate pp s).apf1.g = pp.inputDiffusion1 ∧
     (allPassFilterUpdate pp s).apf2.g = pp.inputDiffusion2 ∧
     (allPassFilterUpdate pp s).apf3.g = pp.inputDiffusion2 ∧
     (allPassFilterUpdate pp s).apf0.delay.delaySamples = 142 ∧
     (allPassFilterUpdate pp s).apf1.delay.delaySamples = 379 ∧
     (allPassFilterUpdate pp s).apf2.delay.delaySamples = 107 ∧
     (allPassFilterUpdate pp s).apf3.delay.delaySamples = 277) ∧
    dattorroParallel ((allPassFilterUpdate pp s).apf0, (allPassFilterUpdate pp s).apf1,
        (allPassFilterUpdate pp s).apf2, (allPassFilterUpdate pp s).apf3) x
      = (((allPassFilterUpdate pp s).apf0.processAudioSample x).1
          + ((allPassFilterUpdate pp s).apf1.processAudioSample x).1
          + ((allPassFilterUpdate pp s).apf2.processAudioSample x).1
          + ((allPassFilterUpdate pp s).apf3.processAudioSample x).1,
         (((allPassFilterUpdate pp s).apf0.processAudioSample x).2,
          ((allPassFilterUpdate pp s).apf1.processAudioSample x).2,
          ((allPassFilterUpdate pp s).apf2.processAudioSample x).2,
          ((allPassFilterUpdate pp s).apf3.processAudioSample x).2)) := by
  have hc : (!(nearlyEqual s.previousFrequency
        (qclamp pp.allPassCutoff 0 (1/2 * s.sampleRate))) ||
      !(nearlyEqual s.previousResonance (qclamp pp.inputDiffusion1 0 10))) = true := by
    rw [h, nearlyEqual_negOne_clamp]
    simp
  refine ⟨fun fs p rL rR => rfl, fun t q o l => rfl, ?_, rfl⟩
  unfold allPassFilterUpdate
  dsimp only
  rw [if_pos hc]
  exact ⟨rfl, rfl, rfl, rfl, rfl, rfl, rfl, rfl⟩

/-- Witness for C2's amended theorem at a concrete state: the first
diffuser of the configured quadruple carries the input diffusion 1
coefficient. -/
theorem claim_C2_amended_witness :
    (allPassFilterUpdate testParams (initState 10 testParams 0 0)).apf0.g
      = testParams.inputDiffusion1 :=
  (claim_C2_amended testParams (initState 10 testParams 0 0) 1 rfl).2.2.1.1

/-- C7 (amended): `execute` is deterministic once the construction-time
random delay draws coincide; in particular with the Random Delay parameter
at 0 the `FMath::RandRange(0, DelayRate)` draws are forced to 0, and two
runs with identical initialization, identical parameters and identical
input produce identical output blocks. -/
theorem claim_C7_amended (fs : ℚ) (p : Params) (x : List ℚ) (rL rR rL' rR' : ℕ)
    (hb : (delayRateInt p).toNat = 0)
    (h1 : rL ≤ (delayRateInt p).toNat) (h2 : rR ≤ (delayRateInt p).toNat)
    (h3 : rL' ≤ (delayRateInt p).toNat) (h4 : rR' ≤ (delayRateInt p).toNat) :
    executeBlock (initState fs p rL rR) p x
      = executeBlock (initState fs p rL' rR') p x := by
  rw [hb] at h1 h2 h3 h4
  obtain rfl : rL = 0 := Nat.le_zero.mp h1
  obtain rfl : rR = 0 := Nat.le_zero.mp h2
  obtain rfl : rL' = 0 := Nat.le_zero.mp h3
  obtain rfl : rR' = 0 := Nat.le_zero.mp h4
  rfl

/-- Witness for C7's amended theorem with the Random Delay parameter at 0. -/
theorem claim_C7_amended_witness :
    executeBlock (initState 10 { testParams with randomDelay := 0 } 0 0)
        { testParams with randomDelay := 0 } [1]
      = executeBlock (initState 10 { testParams with randomDelay := 0 } 0 0)
        { testParams with randomDelay := 0 } [1] :=
  claim_C7_amended 10 { testParams with randomDelay := 0 } [1] 0 0 0 0
    (by decide) (by decide) (by decide) (by decide) (by decide)

theorem zeroBuf_replicate (n : ℕ) : zeroBuf (List.replicate n 0) :=
  fun _ ha => List.eq_of_mem_replicate ha

theorem zeroBuf_getD (l : List ℚ) (h : zeroBuf l) (i : ℕ) : l.getD i 0 = 0 := by
  induction l generalizing i with
  | nil => simp [List.getD]
  | cons x xs ih =>
      cases i with
      | zero => exact h x (by simp)
      | succ k =>
          simpa [List.getD] using ih (fun a ha => h a (by simp [ha])) k

theorem zeroBuf_set (l : List ℚ) (h : zeroBuf l) (i : ℕ) : zeroBuf (l.set i 0) := by
  intro a ha
  rcases List.mem_or_eq_of_mem_set ha with h' | h'
  · exact h a h'
  · exact h'

theorem readDelayAt_zero (d : FDelay) (h : zeroDelay d) (q : ℚ) :
    d.readDelayAt q = 0 := by
  unfold FDelay.readDelayAt
  dsimp only
  rw [zeroBuf_getD _ h, zeroBuf_getD _ h]
  ring

theorem writeDelayAndInc_zero (d : FDelay) (h : zeroDelay d) :
    zeroDelay (d.writeDelayAndInc 0) :=
  zeroBuf_set _ h _

theorem svf_processSample_zero (v : FStateVariableFilter) (h : zeroSVF v) :
    (v.processSample 0).1 = 0 ∧ zeroSVF (v.processSample 0).2 := by
  unfold FStateVariableFilter.processSample zeroSVF at *
  dsimp only
  constructor <;> (rw [h]; ring)

theorem svf_processAudio_zero (n : ℕ) :
    ∀ (v : FStateVariableFilter), zeroSVF v →
    (v.processAudio (List.replicate n 0)).1 = List.replicate n 0 ∧
    zeroSVF (v.processAudio (List.replicate n 0)).2 := by
  induction n with
  | zero => exact fun v h => ⟨rfl, h⟩
  | succ k ih =>
      intro v h
      obtain ⟨h1, h2⟩ := svf_processSample_zero v h
      obtain ⟨i1, i2⟩ := ih _ h2
      constructor
      · show ((v.processSample 0).1
            :: ((v.processSample 0).2.processAudio (List.replicate k 0)).1)
            = List.replicate (k + 1) 0
        rw [h1, i1, List.replicate_succ]
      · exact i2

theorem execSample_zero (s : OpState) (p : Params) (h : zeroState s) :
    (execSample s p 0 0).1.mixed = 0 ∧ zeroState (execSample s p 0 0).2 := by
  obtain ⟨hdb, h0, h1, h2, h3, hd1L, hd2L, hd1R, hd2R, hpL, hpR, hfL, hfR,
    hlpv, hlpd, hfbL, hfbR⟩ := h
  unfold zeroSVF at hlpv hlpd
  simp only [execSample, execSampleCore, dattorroParallel, branchSum,
    FDelayAPF.processAudioSample, FStateVariableFilter.processAudioFrame,
    FStateVariableFilter.processSample, writeDelaysAndInc,
    FDelayAPF.writeDelayAndInc, FDelay.getDelayLengthSamples,
    readDelayAt_zero _ hdb, readDelayAt_zero _ h0, readDelayAt_zero _ h1,
    readDelayAt_zero _ h2, readDelayAt_zero _ h3,
    readDelayAt_zero _ hd1L, readDelayAt_zero _ hd2L,
    readDelayAt_zero _ hd1R, readDelayAt_zero _ hd2R,
    readDelayAt_zero _ hpL, readDelayAt_zero _ hpR,
    readDelayAt_zero _ hfL, readDelayAt_zero _ hfR,
    hfbL, hfbR, hlpd,
    mul_zero, zero_mul, add_zero, zero_add, neg_zero, ne_eq,
    not_true_eq_false, if_false, ite_self]
  constructor
  · simp
  · refine ⟨?_, ?_, ?_, ?_, ?_, ?_, ?_, ?_, ?_, ?_, ?_, ?_, ?_, ?_, ?_, ?_, ?_⟩ <;>
      first
        | exact writeDelayAndInc_zero _ hdb
        | exact writeDelayAndInc_zero _ (writeDelayAndInc_zero _ h0)
        | exact writeDelayAndInc_zero _ (writeDelayAndInc_zero _ h1)
        | exact writeDelayAndInc_zero _ (writeDelayAndInc_zero _ h2)
        | exact writeDelayAndInc_zero _ (writeDelayAndInc_zero _ h3)
        | exact writeDelayAndInc_zero _ (writeDelayAndInc_zero _ hd1L)
        | exact writeDelayAndInc_zero _ (writeDelayAndInc_zero _ hd2L)
        | exact writeDelayAndInc_zero _ (writeDelayAndInc_zero _ hd1R)
        | exact writeDelayAndInc_zero _ (writeDelayAndInc_zero _ hd2R)
        | exact writeDelayAndInc_zero _ hpL
        | exact writeDelayAndInc_zero _ hpR
        | exact writeDelayAndInc_zero _ hfL
        | exact writeDelayAndInc_zero _ hfR
        | exact hlpv
        | rfl

theorem execLoop_zero (p : Params) (n : ℕ) :
    ∀ s : OpState, zeroState s →
    (execLoopWith execSample p s (List.replicate n (0, 0))).1 = List.replicate n 0 ∧
    zeroState (execLoopWith execSample p s (List.replicate n (0, 0))).2 := by
  induction n with
  | zero => exact fun s h => ⟨rfl, h⟩
  | succ k ih =>
      intro s h
      obtain ⟨hm, hs⟩ := execSample_zero s p h
      obtain ⟨i1, i2⟩ := ih _ hs
      constructor
      · show ((execSample s p 0 0).1.mixed
            :: (execLoopWith execSample p (execSample s p 0 0).2
                  (List.replicate k (0, 0))).1)
            = List.replicate (k + 1) 0
        rw [hm, i1, List.replicate_succ]
      · exact i2

theorem lowPassFilterUpdate_zero (p : Params) (s : OpState) (h : zeroState s) :
    zeroState (lowPassFilterUpdate p s) := by
  unfold lowPassFilterUpdate
  dsimp only
  split
  · exact h
  · exact h

theorem allPassFilterUpdate_zero (p : Params) (s : OpState) (h : zeroState s) :
    zeroState (allPassFilterUpdate p s) := by
  unfold allPassFilterUpdate
  dsimp only
  split
  · exact h
  · exact h

theorem executePreLoop_zero (s : OpState) (p : Params) (n : ℕ) (h : zeroState s) :
    zeroState (executePreLoop s p (List.replicate n 0)).1 ∧
    (executePreLoop s p (List.replicate n 0)).2 = List.replicate n 0 := by
  have hmap : (List.replicate n 0).map (fun x => x * p.preLowPassFilter)
      = List.replicate n 0 := by simp
  unfold executePreLoop
  dsimp only
  rw [hmap]
  set s1 : OpState :=
    { s with dampingMultiplicationValue := 1 - p.decayDamping } with hs1
  set cdl := if !(nearlyEqual p.preDelayTime (s1.currentDelayLength.getNextValue).1)
      then (s1.currentDelayLength.getNextValue).2.setValue p.preDelayTime
      else (s1.currentDelayLength.getNextValue).2 with hcdl
  set s2 : OpState := { s1 with currentDelayLength := cdl } with hs2
  have hz2 : zeroState s2 := h
  have hz3 : zeroState (lowPassFilterUpdate p s2) := lowPassFilterUpdate_zero p s2 hz2
  have hzsvf : zeroSVF (lowPassFilterUpdate p s2).lpVariableFilter :=
    hz3.2.2.2.2.2.2.2.2.2.2.2.2.2.1
  obtain ⟨hlp1, hlp2⟩ := svf_processAudio_zero n _ hzsvf
  constructor
  · have hz4 : zeroState
        { lowPassFilterUpdate p s2 with
          lpVariableFilter :=
            ((lowPassFilterUpdate p s2).lpVariableFilter.processAudio
              (List.replicate n 0)).2 } := by
      obtain ⟨a1, a2, a3, a4, a5, a6, a7, a8, a9, a10, a11, a12, a13, a14, a15,
        a16, a17⟩ := hz3
      exact ⟨a1, a2, a3, a4, a5, a6, a7, a8, a9, a10, a11, a12, a13, hlp2, a15,
        a16, a17⟩
    have hz5 := allPassFilterUpdate_zero p _ hz4
    split
    · exact hz5
    · exact hz5
  · exact hlp1

theorem zip_replicate_zero (n : ℕ) :
    (List.replicate n (0 : ℚ)).zip (List.replicate n (0 : ℚ))
      = List.replicate n ((0 : ℚ), (0 : ℚ)) := by
  induction n with
  | zero => rfl
  | succ k ih => simp [List.replicate_succ, ih]

theorem initState_zero (fs : ℚ) (p : Params) (rL rR : ℕ) :
    zeroState (initState fs p rL rR) :=
  ⟨zeroBuf_replicate _, zeroBuf_replicate _, zeroBuf_replicate _,
   zeroBuf_replicate _, zeroBuf_replicate _, zeroBuf_replicate _,
   zeroBuf_replicate _, zeroBuf_replicate _, zeroBuf_replicate _,
   zeroBuf_replicate _, zeroBuf_replicate _, zeroBuf_replicate _,
   zeroBuf_replicate _, rfl, rfl, rfl, rfl⟩

/-- C6: an all-zero input block of any length, processed with all internal
state at rest - immediately after initialization, every delay buffer
zero-filled and both feedback registers zero - produces an all-zero output
block of the same length, for any sample rate, any parameter values and any
random delay draws. -/
theorem claim_C6_silence (fs : ℚ) (p : Params) (rL rR : ℕ) (n : ℕ) :
    (executeBlock (initState fs p rL rR) p (List.replicate n 0)).1
      = List.replicate n 0 := by
  obtain ⟨hpre, hlow⟩ := executePreLoop_zero (initState fs p rL rR) p n
    (initState_zero fs p rL rR)
  show (execLoopWith execSample p
      (executePreLoop (initState fs p rL rR) p (List.replicate n 0)).1
      ((List.replicate n 0).zip
        (executePreLoop (initState fs p rL rR) p (List.replicate n 0)).2)).1
    = List.replicate n 0
  rw [hlow, zip_replicate_zero]
  exact (execLoop_zero p n _ hpre).1

theorem execSample_scrub (s t : OpState) (p : Params) (o l : ℚ)
    (h : scrubLPV s = scrubLPV t) :
    (execSample s p o l).1 = (execSample t p o l).1 ∧
    scrubLPV (execSample s p o l).2 = scrubLPV (execSample t p o l).2 := by
  cases s; cases t
  simp only [scrubLPV, OpState.mk.injEq, and_true, true_and] at h
  obtain ⟨e1, e2, e3, e4, e5, e6, e7, e8, e9, e10, e11, e12, e13, e14, e15, e16,
    e17, e18, e19, e20, e21, e22, e23, e24, e25, e26, e27, e28, e29⟩ := h
  subst_vars
  exact ⟨rfl, rfl⟩

theorem processAudio_take (n : ℕ) :
    ∀ (v : FStateVariableFilter) (xs ys : List ℚ), xs.take n = ys.take n →
    ((v.processAudio xs).1).take n = ((v.processAudio ys).1).take n := by
  induction n with
  | zero => simp
  | succ k ih =>
      intro v xs ys h
      cases xs with
      | nil =>
          cases ys with
          | nil => rfl
          | cons b bs => simp [List.take_succ_cons] at h
      | cons a as =>
          cases ys with
          | nil => simp [List.take_succ_cons] at h
          | cons b bs =>
              simp only [List.take_succ_cons, List.cons.injEq] at h
              obtain ⟨rfl, h2⟩ := h
              show ((v.processSample a).1
                  :: ((v.processSample a).2.processAudio as).1).take (k + 1)
                = ((v.processSample a).1
                  :: ((v.processSample a).2.processAudio bs).1).take (k + 1)
              simp only [List.take_succ_cons, List.cons.injEq, true_and]
              exact ih _ as bs h2

theorem execLoop_take (p : Params) (n : ℕ) :
    ∀ (s t : OpState) (xs ys : List (ℚ × ℚ)), scrubLPV s = scrubLPV t →
    xs.take n = ys.take n →
    ((execLoopWith execSample p s xs).1).take n
      = ((execLoopWith execSample p t ys).1).take n := by
  induction n with
  | zero => simp
  | succ k ih =>
      intro s t xs ys hst h
      cases xs with
      | nil =>
          cases ys with
          | nil => rfl
          | cons b bs => simp [List.take_succ_cons] at h
      | cons a as =>
          cases ys with
          | nil => simp [List.take_succ_cons] at h
          | cons b bs =>
              simp only [List.take_succ_cons, List.cons.injEq] at h
              obtain ⟨rfl, h2⟩ := h
              obtain ⟨htr, hsc⟩ := execSample_scrub s t p a.1 a.2 hst
              show ((execSample s p a.1 a.2).1.mixed
                  :: (execLoopWith execSample p (execSample s p a.1 a.2).2 as).1).take (k + 1)
                = ((execSample t p a.1 a.2).1.mixed
                  :: (execLoopWith execSample p (execSample t p a.1 a.2).2 bs).1).take (k + 1)
              simp only [List.take_succ_cons, List.cons.injEq]
              exact ⟨congrArg SampleTrace.mixed htr, ih _ _ as bs hsc h2⟩

theorem executePreLoop_scrub (s : OpState) (p : Params) (xs ys : List ℚ) :
    scrubLPV (executePreLoop s p xs).1 = scrubLPV (executePreLoop s p ys).1 := by
  unfold executePreLoop lowPassFilterUpdate allPassFilterUpdate scrubLPV
  dsimp only
  (repeat' split) <;> first | rfl | simp_all

theorem take_zip_eq (n : ℕ) :
    ∀ (l₁ l₂ : List ℚ), ((l₁.zip l₂).take n) = (l₁.take n).zip (l₂.take n) := by
  induction n with
  | zero => simp
  | succ k ih =>
      intro l₁ l₂
      cases l₁ with
      | nil => simp
      | cons a as =>
          cases l₂ with
          | nil => simp
          | cons b bs =>
              simp only [List.zip_cons_cons, List.take_succ_cons]
              rw [ih]

theorem executePreLoop_out_take (s : OpState) (p : Params) (n : ℕ)
    (xs ys : List ℚ) (h : xs.take n = ys.take n) :
    ((executePreLoop s p xs).2).take n = ((executePreLoop s p ys).2).take n := by
  apply processAudio_take
  rw [← List.map_take, ← List.map_take, h]

/-- C10: within one `Execute` call, the output sample at index `i` is a
function only of the input samples at indices up to `i` and of the engine
state at block start: two input blocks agreeing on their first `i + 1`
samples yield the same output at index `i`, so changing `input[j]` for any
`j > i` leaves `output[i]` unchanged. -/
theorem claim_C10_prefix_determinism (s : OpState) (p : Params)
    (xs ys : List ℚ) (i : ℕ) (h : xs.take (i + 1) = ys.take (i + 1)) :
    ((executeBlock s p xs).1).getD i 0 = ((executeBlock s p ys).1).getD i 0 := by
  have hout : ((executeBlock s p xs).1).take (i + 1)
      = ((executeBlock s p ys).1).take (i + 1) := by
    show ((execLoopWith execSample p (executePreLoop s p xs).1
        (xs.zip (executePreLoop s p xs).2)).1).take (i + 1)
      = ((execLoopWith execSample p (executePreLoop s p ys).1
        (ys.zip (executePreLoop s p ys).2)).1).take (i + 1)
    apply execLoop_take
    · exact executePreLoop_scrub s p xs ys
    · rw [take_zip_eq, take_zip_eq, h, executePreLoop_out_take s p (i + 1) xs ys h]
  have hx : (((executeBlock s p xs).1).take (i + 1))[i]?
      = ((executeBlock s p xs).1)[i]? :=
    List.getElem?_take_of_lt (Nat.lt_succ_self i)
  have hy : (((executeBlock s p ys).1).take (i + 1))[i]?
      = ((executeBlock s p ys).1)[i]? :=
    List.getElem?_take_of_lt (Nat.lt_succ_self i)
  rw [List.getD_eq_getElem?_getD, List.getD_eq_getElem?_getD, ← hx, ← hy, hout]

/-- Witness for C10 at a concrete state and index: the blocks `[1, 2, 3]`
and `[1, 2, 4]` agree up to index 1 and give the same output there. -/
theorem claim_C10_witness :
    ([1, 2, 3] : List ℚ).take 2 = ([1, 2, 4] : List ℚ).take 2 ∧
    ((executeBlock (initState 10 testParams 0 0) testParams [1, 2, 3]).1).getD 1 0
      = ((executeBlock (initState 10 testParams 0 0) testParams [1, 2, 4]).1).getD 1 0 :=
  ⟨rfl, claim_C10_prefix_determinism (initState 10 testParams 0 0) testParams
    [1, 2, 3] [1, 2, 4] 1 rfl⟩
